import Mathlib

/-!
Verification of the FROST transport-adapter and session-runner layer
(`src/frost/keygen.rs`, `src/frost/signing.rs`).

The Rust code is shallowly embedded: pure data (envelopes, results,
signatures) becomes Lean structures; the stateful sink/stream adapters
become explicit state-passing functions; fallible operations return
`Except`.  External collaborators (the givre protocol engine, serde_json
serialization, the async channel, wall-clock timers) are abstracted as
parameters or opaque outcome fields of an environment record, so all
control flow of the embedded functions mirrors the Rust source.
-/

namespace Frost

/-- Wire envelope `ProtocolMessage` (keygen.rs lines 28-36, signing.rs
lines 24-32; both modules declare the identical struct).  `u16`/`u64`
fields are modelled as `Nat`; the claims under study concern counters
counting up from 0, far from any wrap boundary. -/
structure ProtocolMessage where
  session_id : String
  sender : Nat
  recipient : Option Nat
  round : Nat
  payload : List Nat
  seq : Nat
  deriving Repr, DecidableEq

/-- Destination `round_based::MessageDestination` of an outgoing engine message. -/
inductive MessageDestination where
  | AllParties : MessageDestination
  | OneParty : Nat → MessageDestination
  deriving Repr, DecidableEq

/-- Engine output `round_based::Outgoing<M>`: an engine output message with its
destination. -/
structure Outgoing (α : Type) where
  recipient : MessageDestination
  msg : α
  deriving Repr, DecidableEq

/-- Message classification `round_based::MessageType` as matched on in `ChannelStream::poll_next`. -/
inductive MessageType where
  | Broadcast : MessageType
  | P2P : MessageType
  deriving Repr, DecidableEq

/-- Engine input `round_based::Incoming<M>`: the typed engine input built by
`ChannelStream::poll_next`. -/
structure Incoming (α : Type) where
  id : Nat
  sender : Nat
  msg_type : MessageType
  msg : α
  deriving Repr, DecidableEq

/-- Error kinds of `std::io::ErrorKind` used by the adapters: `InvalidData` for
serde failures, `Other` for channel send failures
(`std::io::Error::other`). -/
inductive IOErrorKind where
  | InvalidData : IOErrorKind
  | Other : IOErrorKind
  deriving Repr, DecidableEq

/-- A `std::io::Error`: kind plus the carried cause description. -/
structure IOError where
  kind : IOErrorKind
  msg : String
  deriving Repr, DecidableEq

/-- Sender side of the `async_channel` transport queue, as observed by
`try_send`: a queue of envelopes, an optional capacity bound, and a
closed flag.  `try_send` fails when the channel is full or closed and
otherwise appends. -/
structure Channel where
  queue : List ProtocolMessage
  capacity : Option Nat
  closed : Bool
  deriving Repr, DecidableEq

/-- Non-blocking `async_channel::Sender::try_send`: errors when the
channel is closed or (when bounded) full, otherwise enqueues the
message. -/
def Channel.trySend (ch : Channel) (m : ProtocolMessage) :
    Except String Channel :=
  if ch.closed then
    Except.error "sending into a closed channel"
  else
    match ch.capacity with
    | some cap =>
        if cap ≤ ch.queue.length then
          Except.error "sending into a full channel"
        else
          Except.ok { ch with queue := ch.queue ++ [m] }
    | none => Except.ok { ch with queue := ch.queue ++ [m] }

/-- Mutable state of `ChannelSink` (keygen.rs lines 98-106, signing.rs
lines 110-118): the session id, the party index, and the sequence
counter (initialised to 0 by the session runners). -/
structure ChannelSink where
  session_id : String
  party_index : Nat
  seq : Nat
  deriving Repr, DecidableEq

/-- Sink operation `ChannelSink::start_send` (keygen.rs lines 115-146, signing.rs lines
127-157), with serde_json serialization abstracted as the parameter
`ser`.  The counter is incremented first; the destination is resolved to
the optional `recipient` and `round = 0`; serialization failure aborts
with an `InvalidData` error; `try_send` failure aborts with an `Other`
error.  Returns the updated sink state, the (possibly updated) channel,
and the `Result`. -/
def startSend {α : Type} (ser : α → Except String (List Nat))
    (sink : ChannelSink) (ch : Channel) (item : Outgoing α) :
    ChannelSink × Channel × Except IOError Unit :=
  let sink' := { sink with seq := sink.seq + 1 }
  let seq := sink'.seq
  let recipient : Option Nat :=
    match item.recipient with
    | MessageDestination.AllParties => none
    | MessageDestination.OneParty p => some p
  let round : Nat := 0
  match ser item.msg with
  | Except.error e => (sink', ch, Except.error ⟨IOErrorKind.InvalidData, e⟩)
  | Except.ok payload =>
      let m : ProtocolMessage :=
        { session_id := sink.session_id
          sender := sink.party_index
          recipient := recipient
          round := round
          payload := payload
          seq := seq }
      match ch.trySend m with
      | Except.error e => (sink', ch, Except.error ⟨IOErrorKind.Other, e⟩)
      | Except.ok ch' => (sink', ch', Except.ok ())

/-- The body of `ChannelStream::poll_next` applied to one received
envelope (keygen.rs lines 63-95, signing.rs lines 78-107), with serde
deserialization abstracted as `deser`.  The engine input takes `id` from
`seq`, `sender` from `sender`, the message type from the presence of
`recipient`, and the message deserialized from `payload`; deserialization
failure yields an `InvalidData` stream error. -/
def processIncoming {α : Type} (deser : List Nat → Except String α)
    (m : ProtocolMessage) : Except IOError (Incoming α) :=
  match deser m.payload with
  | Except.ok protocol_msg =>
      Except.ok
        { id := m.seq
          sender := m.sender
          msg_type :=
            if m.recipient.isSome then MessageType.P2P
            else MessageType.Broadcast
          msg := protocol_msg }
  | Except.error e => Except.error ⟨IOErrorKind.InvalidData, e⟩

/-- A sequence of `start_send` calls against one sink and channel,
returning the final sink state, the final channel, and the list of
per-send results in call order. -/
def sendTrace {α : Type} (ser : α → Except String (List Nat)) :
    ChannelSink → Channel → List (Outgoing α) →
    ChannelSink × Channel × List (Except IOError Unit)
  | sink, ch, [] => (sink, ch, [])
  | sink, ch, item :: rest =>
      let (sink', ch', r) := startSend ser sink ch item
      let (sinkF, chF, rs) := sendTrace ser sink' ch' rest
      (sinkF, chF, r :: rs)

/-- Result record `FrostKeygenResult` (keygen.rs lines 38-50).  `duration_secs` is an
always-present field (`f64` in the source), modelled as an opaque `Nat`
wall-clock reading. -/
structure FrostKeygenResult where
  success : Bool
  key_share_data : Option (List Nat)
  public_key : Option (List Nat)
  error : Option String
  duration_secs : Nat
  deriving Repr, DecidableEq

/-- The public-key normalization inlined in `run_frost_keygen`
(keygen.rs lines 228-243): a 33-byte compressed encoding is reduced to
its trailing 32 x-coordinate bytes (`pk_bytes[1..33]`), a 32-byte input
is kept as is, and any other length is the error returned at line 240. -/
def normalizePublicKey (pk_bytes : List Nat) : Except String (List Nat) :=
  if pk_bytes.length = 33 then
    Except.ok (pk_bytes.drop 1)
  else if pk_bytes.length = 32 then
    Except.ok pk_bytes
  else
    Except.error ("Unexpected public key length: " ++ toString pk_bytes.length)

/-- Environment of one `run_frost_keygen` call: the outcome of the givre
keygen engine (on success, the compressed bytes
`key_share.shared_public_key().to_bytes(true)` of the resulting share),
the outcome of `serde_json::to_vec(&key_share)`, and the wall-clock
elapsed reading. -/
structure KeygenEnv where
  keygenOutcome : Except String (List Nat)
  serOutcome : Except String (List Nat)
  elapsed : Nat
  deriving Repr

/-- Session runner `run_frost_keygen` (keygen.rs lines 161-287), with the engine run,
key-share serialization and the timer abstracted into `env`.  Mirrors
the source's branch structure: engine failure → `Protocol error`;
unexpected public-key length → early failure return (line 236); key-share
serialization failure → `Serialization error` (line 258); otherwise the
success record. -/
def run_frost_keygen (env : KeygenEnv) : FrostKeygenResult :=
  match env.keygenOutcome with
  | Except.error e =>
      { success := false
        key_share_data := none
        public_key := none
        error := some ("Protocol error: " ++ e)
        duration_secs := env.elapsed }
  | Except.ok pk_bytes =>
      match normalizePublicKey pk_bytes with
      | Except.error msg =>
          { success := false
            key_share_data := none
            public_key := none
            error := some msg
            duration_secs := env.elapsed }
      | Except.ok public_key_bytes =>
          match env.serOutcome with
          | Except.error e =>
              { success := false
                key_share_data := none
                public_key := none
                error := some ("Serialization error: " ++ e)
                duration_secs := env.elapsed }
          | Except.ok key_share_data =>
              { success := true
                key_share_data := some key_share_data
                public_key := some public_key_bytes
                error := none
                duration_secs := env.elapsed }

/-- Signature record `SchnorrSignature` (signing.rs lines 35-41): the two signature
components as byte vectors. -/
structure SchnorrSignature where
  r : List Nat
  s : List Nat
  deriving Repr, DecidableEq

/-- Conversion `SchnorrSignature::to_bytes` (signing.rs lines 43-51): the
concatenation `r || s`. -/
def SchnorrSignature.to_bytes (sig : SchnorrSignature) : List Nat :=
  sig.r ++ sig.s

/-- Modelled from the spec: the benchmark recorder of `crate::bench`
(its source file is not part of this repository slice; spec §4.6) — an
append-only log of (phase name, duration) pairs. -/
structure BenchmarkRecorder where
  steps : List (String × Nat)
  deriving Repr, DecidableEq

/-- Modelled from the spec: the immutable benchmark report snapshot
produced by `BenchmarkRecorder::report` after `complete` (spec §4.6):
the recorded phase list plus the frozen total elapsed time. -/
structure BenchmarkReport where
  steps : List (String × Nat)
  total : Nat
  deriving Repr, DecidableEq

/-- Result record `FrostSigningResult` (signing.rs lines 54-65). -/
structure FrostSigningResult where
  success : Bool
  signature : Option SchnorrSignature
  error : Option String
  duration_secs : Nat
  benchmark : Option BenchmarkReport
  deriving Repr, DecidableEq

/-- The R-component normalization inlined in
`run_frost_signing_with_benchmark` (signing.rs lines 341-363): a 33-byte
compressed point is reduced to `r_point_bytes[1..33]`, a 32-byte input
is already x-only, any other length is the error returned at line 356. -/
def normalizeRPoint (r_point_bytes : List Nat) : Except String (List Nat) :=
  if r_point_bytes.length = 33 then
    Except.ok (r_point_bytes.drop 1)
  else if r_point_bytes.length = 32 then
    Except.ok r_point_bytes
  else
    Except.error ("Unexpected R point length: " ++ toString r_point_bytes.length)

/-- The raw signature returned by the givre engine, as read by the
extraction code: `signature.r.to_bytes()` and
`signature.z.to_be_bytes()`. -/
structure RawSignature where
  rBytes : List Nat
  zBytes : List Nat
  deriving Repr, DecidableEq

/-- Environment of one `run_frost_signing_with_benchmark` call: the
outcome of key-share deserialization (the share itself is opaque to the
runner), of `set_taproot_tweak(None)`, and of the MPC `sign` call; the
result of each `recorder.lock()` attempt in call order (a poisoned-lock
failure skips that record, spec §4.6); and opaque wall-clock readings
for the per-step timers and the total. -/
structure SignEnv where
  keyShareOutcome : Except String Unit
  tweakOutcome : Except String Unit
  signOutcome : Except String RawSignature
  lockOk : Nat → Bool
  stepElapsed : Nat → Nat
  elapsed : Nat

/-- One `if enable_benchmark { if let Ok(mut rec) = recorder.lock() {
rec.record_step(..) } }` block: when benchmarking is on, a lock attempt
(numbered `idx`) is made; on success the step is appended, on failure it
is silently skipped; either way the lock-attempt counter advances. -/
def recordStep (enable : Bool) (env : SignEnv) (st : BenchmarkRecorder × Nat)
    (name : String) (dur : Nat) : BenchmarkRecorder × Nat :=
  if enable then
    if env.lockOk st.2 then
      ({ steps := st.1.steps ++ [(name, dur)] }, st.2 + 1)
    else
      (st.1, st.2 + 1)
  else
    st

/-- The terminal `recorder.lock() → complete(); report()` block of the
runner (signing.rs lines 398-409 and 423-434): when benchmarking is on
and the lock is acquired, the frozen report; otherwise `None`. -/
def finishBenchmark (enable : Bool) (env : SignEnv)
    (st : BenchmarkRecorder × Nat) : Option BenchmarkReport :=
  if enable then
    if env.lockOk st.2 then
      some { steps := st.1.steps, total := env.elapsed }
    else
      none
  else
    none

/-- Session runner `run_frost_signing_with_benchmark` (signing.rs lines 200-445), with
the collaborators abstracted into `env`.  Mirrors the source's branch
structure: key-share deserialization failure returns immediately with
`benchmark: None` (line 241); steps 1-3 are recorded; a taproot-tweak
failure returns with `benchmark: None` (line 306); steps 4-5 are
recorded around the MPC sign call; on an engine error the report is
completed and attached (line 436); on success the R component is
normalized (early `benchmark: None` return at line 353 on bad length),
the component lengths are checked (early `benchmark: None` return at
line 374), step 6 is recorded, and the completed report is attached. -/
def run_frost_signing_with_benchmark (enable_benchmark : Bool)
    (env : SignEnv) : FrostSigningResult :=
  let st0 : BenchmarkRecorder × Nat := (⟨[]⟩, 0)
  match env.keyShareOutcome with
  | Except.error e =>
      { success := false
        signature := none
        error := some ("Key share deserialization error: " ++ e)
        duration_secs := env.elapsed
        benchmark := none }
  | Except.ok _ =>
      let st1 := recordStep enable_benchmark env st0
        "1. Deserialize key_share" (env.stepElapsed 1)
      let st2 := recordStep enable_benchmark env st1
        "2. Protocol setup (channels, party)" (env.stepElapsed 2)
      let st3 := recordStep enable_benchmark env st2
        "3. Create signing builder" (env.stepElapsed 3)
      match env.tweakOutcome with
      | Except.error e =>
          { success := false
            signature := none
            error := some ("Failed to set taproot tweak: " ++ e)
            duration_secs := env.elapsed
            benchmark := none }
      | Except.ok _ =>
          let st4 := recordStep enable_benchmark env st3
            "4. Set taproot tweak (BIP-341)" (env.stepElapsed 4)
          let st5 := recordStep enable_benchmark env st4
            "5. MPC signing protocol" (env.stepElapsed 5)
          match env.signOutcome with
          | Except.ok signature =>
              match normalizeRPoint signature.rBytes with
              | Except.error msg =>
                  { success := false
                    signature := none
                    error := some msg
                    duration_secs := env.elapsed
                    benchmark := none }
              | Except.ok r =>
                  let s := signature.zBytes
                  if r.length ≠ 32 ∨ s.length ≠ 32 then
                    { success := false
                      signature := none
                      error := some ("Unexpected signature lengths: R="
                        ++ toString r.length ++ ", s=" ++ toString s.length)
                      duration_secs := env.elapsed
                      benchmark := none }
                  else
                    let st6 := recordStep enable_benchmark env st5
                      "6. Extract signature components" (env.stepElapsed 6)
                    { success := true
                      signature := some { r := r, s := s }
                      error := none
                      duration_secs := env.elapsed
                      benchmark := finishBenchmark enable_benchmark env st6 }
          | Except.error e =>
              { success := false
                signature := none
                error := some ("Protocol error: " ++ e)
                duration_secs := env.elapsed
                benchmark := finishBenchmark enable_benchmark env st5 }

/-! ### Concrete instances used by witnesses and counterexamples -/

/-- A serializer that always fails, standing for a failing
`serde_json::to_vec`. -/
def serFail : Nat → Except String (List Nat) := fun _ => Except.error "json error"

/-- A deserializer standing for a successful `serde_json::from_slice`. -/
def deserLen : List Nat → Except String Nat := fun l => Except.ok l.length

/-- A serializer standing for a successful `serde_json::to_vec`. -/
def serSingleton : Nat → Except String (List Nat) := fun n => Except.ok [n]

/-- A serializer that fails exactly on message 0, standing for a
`serde_json::to_vec` failure on one particular message. -/
def serFailZero : Nat → Except String (List Nat) :=
  fun n => if n = 0 then Except.error "boom" else Except.ok [n]

/-- Environment for a signing run whose engine returns an R component of
unexpected length 3. -/
def envBadR : SignEnv :=
  { keyShareOutcome := Except.ok ()
    tweakOutcome := Except.ok ()
    signOutcome := Except.ok { rBytes := [1, 2, 3], zBytes := List.replicate 32 0 }
    lockOk := fun _ => true
    stepElapsed := fun _ => 0
    elapsed := 0 }

/-- A deserializer inverting `serSingleton`, standing for a successful
`serde_json::from_slice` that recovers the original message. -/
def deserSingle : List Nat → Except String Nat :=
  fun l =>
    match l with
    | [n] => Except.ok n
    | _ => Except.error "unexpected payload"

/-- Environment for a signing run whose taproot-tweak step fails while
the recorder is initialized and every lock acquisition succeeds. -/
def envTweakFail : SignEnv :=
  { keyShareOutcome := Except.ok ()
    tweakOutcome := Except.error "invalid key share"
    signOutcome := Except.error "unreachable"
    lockOk := fun _ => true
    stepElapsed := fun _ => 0
    elapsed := 0 }

/-- Environment for a keygen run aborted by the protocol engine. -/
def envKFail : KeygenEnv :=
  { keygenOutcome := Except.error "engine abort"
    serOutcome := Except.ok []
    elapsed := 3 }

/-- Environment for a fully successful signing run with a 33-byte
compressed R component and a 32-byte scalar. -/
def envSignOk : SignEnv :=
  { keyShareOutcome := Except.ok ()
    tweakOutcome := Except.ok ()
    signOutcome := Except.ok
      { rBytes := 2 :: List.replicate 32 5, zBytes := List.replicate 32 9 }
    lockOk := fun _ => true
    stepElapsed := fun _ => 0
    elapsed := 7 }

/-! ### Helper lemmas -/

/-- Inversion of a successful `try_send`: the resulting channel is the
old one with the message appended. -/
theorem trySend_ok_spec {ch ch' : Channel} {m : ProtocolMessage}
    (h : ch.trySend m = Except.ok ch') :
    ch' = { ch with queue := ch.queue ++ [m] } := by
  unfold Channel.trySend at h
  split at h
  · simp at h
  · split at h
    · split at h
      · simp at h
      · exact (Except.ok.inj h).symm
    · exact (Except.ok.inj h).symm

/-- Inversion of a successful `start_send`: the sequence counter is
incremented and exactly one envelope, carrying the sink's session id,
party index, the resolved destination, round 0, the serialized payload
and the fresh counter value, is appended to the channel. -/
theorem startSend_ok_inv {α : Type} {ser : α → Except String (List Nat)}
    {sink sink' : ChannelSink} {ch ch' : Channel} {item : Outgoing α}
    (h : startSend ser sink ch item = (sink', ch', Except.ok ())) :
    sink' = { sink with seq := sink.seq + 1 } ∧
    ∃ payload,
      ser item.msg = Except.ok payload ∧
      ch' = { ch with queue := ch.queue ++
        [{ session_id := sink.session_id
           sender := sink.party_index
           recipient :=
             match item.recipient with
             | MessageDestination.AllParties => none
             | MessageDestination.OneParty p => some p
           round := 0
           payload := payload
           seq := sink.seq + 1 }] } := by
  simp only [startSend] at h
  split at h
  · simp [Prod.ext_iff] at h
  · rename_i payload hser
    split at h
    · simp [Prod.ext_iff] at h
    · rename_i ch2 htry
      simp only [Prod.mk.injEq] at h
      obtain ⟨h1, h2, -⟩ := h
      subst h1
      subst h2
      exact ⟨rfl, payload, hser, trySend_ok_spec htry⟩

/-- Inversion of a failed `start_send`: the sequence counter is still
incremented and the channel is left untouched. -/
theorem startSend_err_inv {α : Type} {ser : α → Except String (List Nat)}
    {sink sink' : ChannelSink} {ch ch' : Channel} {item : Outgoing α}
    {e : IOError}
    (h : startSend ser sink ch item = (sink', ch', Except.error e)) :
    sink' = { sink with seq := sink.seq + 1 } ∧ ch' = ch := by
  simp only [startSend] at h
  split at h
  · simp only [Prod.mk.injEq] at h
    obtain ⟨h1, h2, -⟩ := h
    exact ⟨h1.symm, h2.symm⟩
  · split at h
    · simp only [Prod.mk.injEq] at h
      obtain ⟨h1, h2, -⟩ := h
      exact ⟨h1.symm, h2.symm⟩
    · simp [Prod.ext_iff] at h

/-- The message type delivered by the inbound adapter is computed solely
from the presence of the envelope's `recipient` field. -/
theorem processIncoming_msg_type {α : Type}
    {deser : List Nat → Except String α} {m : ProtocolMessage}
    {inc : Incoming α} (h : processIncoming deser m = Except.ok inc) :
    inc.msg_type =
      if m.recipient.isSome then MessageType.P2P else MessageType.Broadcast := by
  unfold processIncoming at h
  split at h
  · rw [← Except.ok.inj h]
  · simp at h

/-! ### Claim theorems -/

/-- C8: if serializing the engine's outgoing message fails in
`ChannelSink::start_send`, the send aborts with an `InvalidData`
(data-malformed) error and the outbound channel is left exactly as it
was — no envelope is enqueued for that message. -/
theorem serialization_failure_aborts_send {α : Type}
    (ser : α → Except String (List Nat)) (sink : ChannelSink) (ch : Channel)
    (item : Outgoing α) (e : String) (hser : ser item.msg = Except.error e) :
    startSend ser sink ch item =
      ({ sink with seq := sink.seq + 1 }, ch,
        Except.error ⟨IOErrorKind.InvalidData, e⟩) := by
  simp [startSend, hser]

/-- Witness for C8 at a concrete sink, channel and message. -/
theorem serialization_failure_aborts_send_witness :
    serFail 0 = Except.error "json error" ∧
    startSend serFail ⟨"s1", 0, 0⟩ ⟨[], none, false⟩
        ⟨MessageDestination.AllParties, 0⟩ =
      (⟨"s1", 0, 1⟩, ⟨[], none, false⟩,
        Except.error ⟨IOErrorKind.InvalidData, "json error"⟩) :=
  ⟨rfl, serialization_failure_aborts_send serFail ⟨"s1", 0, 0⟩ ⟨[], none, false⟩
    ⟨MessageDestination.AllParties, 0⟩ "json error" rfl⟩

/-- C10: `ChannelStream::poll_next` never reads `session_id` or
`round`: two received envelopes agreeing on `sender`, `recipient`,
`payload` and `seq` produce identical engine inputs, so the inbound
adapter performs no foreign-session filtering. -/
theorem inbound_ignores_session_and_round {α : Type}
    (deser : List Nat → Except String α) (m1 m2 : ProtocolMessage)
    (hs : m1.sender = m2.sender) (hr : m1.recipient = m2.recipient)
    (hp : m1.payload = m2.payload) (hq : m1.seq = m2.seq) :
    processIncoming deser m1 = processIncoming deser m2 := by
  cases m1
  cases m2
  simp only at hs hr hp hq
  subst hs
  subst hr
  subst hp
  subst hq
  rfl

/-- Witness for C10: two envelopes differing only in `session_id` and
`round` are processed identically. -/
theorem inbound_ignores_session_and_round_witness :
    processIncoming deserLen ⟨"session-a", 1, some 2, 0, [9, 9], 5⟩ =
      processIncoming deserLen ⟨"session-b", 1, some 2, 7, [9, 9], 5⟩ :=
  inbound_ignores_session_and_round deserLen
    ⟨"session-a", 1, some 2, 0, [9, 9], 5⟩
    ⟨"session-b", 1, some 2, 7, [9, 9], 5⟩ rfl rfl rfl rfl

/-- C5: addressing round-trip.  A successful send of an all-parties
message emits an envelope with `recipient = none`, which the inbound
adapter classifies as `Broadcast`; a successful send to one party `p`
emits `recipient = some p`, classified as `P2P`; and the classification
depends only on the `recipient` field, never on payload content. -/
theorem addressing_round_trip {α : Type}
    (ser : α → Except String (List Nat)) (deser : List Nat → Except String α)
    (sink sink' : ChannelSink) (ch ch' : Channel) (item : Outgoing α)
    (hok : startSend ser sink ch item = (sink', ch', Except.ok ())) :
    (∃ m : ProtocolMessage, ch'.queue = ch.queue ++ [m] ∧
      (item.recipient = MessageDestination.AllParties →
        m.recipient = none ∧
        ∀ inc : Incoming α, processIncoming deser m = Except.ok inc →
          inc.msg_type = MessageType.Broadcast) ∧
      (∀ p : Nat, item.recipient = MessageDestination.OneParty p →
        m.recipient = some p ∧
        ∀ inc : Incoming α, processIncoming deser m = Except.ok inc →
          inc.msg_type = MessageType.P2P)) ∧
    (∀ m1 m2 : ProtocolMessage, m1.recipient = m2.recipient →
      ∀ inc1 inc2 : Incoming α,
        processIncoming deser m1 = Except.ok inc1 →
        processIncoming deser m2 = Except.ok inc2 →
        inc1.msg_type = inc2.msg_type) := by
  obtain ⟨-, payload, -, hch⟩ := startSend_ok_inv hok
  constructor
  · refine ⟨_, by rw [hch], ?_, ?_⟩
    · intro hAll
      constructor
      · simp [hAll]
      · intro inc hinc
        rw [processIncoming_msg_type hinc]
        simp [hAll]
    · intro p hOne
      constructor
      · simp [hOne]
      · intro inc hinc
        rw [processIncoming_msg_type hinc]
        simp [hOne]
  · intro m1 m2 hrec inc1 inc2 h1 h2
    rw [processIncoming_msg_type h1, processIncoming_msg_type h2, hrec]

/-- Witness for C5: a concrete unicast send to party 2 is emitted with
`recipient = some 2` and classified as `P2P` on receipt. -/
theorem addressing_round_trip_witness :
    (∃ m : ProtocolMessage,
      (Channel.mk [⟨"s1", 0, some 2, 0, [7], 1⟩] none false).queue =
        (Channel.mk [] none false).queue ++ [m] ∧
      ((Outgoing.mk (MessageDestination.OneParty 2) 7).recipient =
          MessageDestination.AllParties →
        m.recipient = none ∧
        ∀ inc : Incoming Nat, processIncoming deserLen m = Except.ok inc →
          inc.msg_type = MessageType.Broadcast) ∧
      (∀ p : Nat,
        (Outgoing.mk (MessageDestination.OneParty 2) 7).recipient =
          MessageDestination.OneParty p →
        m.recipient = some p ∧
        ∀ inc : Incoming Nat, processIncoming deserLen m = Except.ok inc →
          inc.msg_type = MessageType.P2P)) ∧
    (∀ m1 m2 : ProtocolMessage, m1.recipient = m2.recipient →
      ∀ inc1 inc2 : Incoming Nat,
        processIncoming deserLen m1 = Except.ok inc1 →
        processIncoming deserLen m2 = Except.ok inc2 →
        inc1.msg_type = inc2.msg_type) :=
  addressing_round_trip serSingleton deserLen ⟨"s1", 0, 0⟩ ⟨"s1", 0, 1⟩
    ⟨[], none, false⟩ ⟨[⟨"s1", 0, some 2, 0, [7], 1⟩], none, false⟩
    ⟨MessageDestination.OneParty 2, 7⟩ rfl

/-- C6 (counterexample): `to_bytes` enforces no component lengths — on
the `SchnorrSignature` value with empty components it yields 0 bytes,
not 64, so the claim quantified over every `SchnorrSignature` value
fails. -/
theorem schnorr_to_bytes_claim_counterexample :
    (SchnorrSignature.to_bytes { r := [], s := [] }).length ≠ 64 := by
  decide

/-- C6 (amended): for signatures whose components are each 32 bytes —
as every signature constructed by the signing runner is — `to_bytes`
yields exactly 64 bytes, the first 32 equal to `r` and the last 32
equal to `s`. -/
theorem schnorr_to_bytes_layout (sig : SchnorrSignature)
    (hr : sig.r.length = 32) (hs : sig.s.length = 32) :
    (SchnorrSignature.to_bytes sig).length = 64 ∧
    (SchnorrSignature.to_bytes sig).take 32 = sig.r ∧
    (SchnorrSignature.to_bytes sig).drop 32 = sig.s := by
  unfold SchnorrSignature.to_bytes
  refine ⟨?_, ?_, ?_⟩
  · simp [hr, hs]
  · exact List.take_left' hr
  · exact List.drop_left' hr

/-- Witness for C6 (amended) at a concrete 32+32-byte signature. -/
theorem schnorr_to_bytes_layout_witness :
    (SchnorrSignature.to_bytes
        { r := List.replicate 32 1, s := List.replicate 32 2 }).length = 64 ∧
    (SchnorrSignature.to_bytes
        { r := List.replicate 32 1, s := List.replicate 32 2 }).take 32 =
      List.replicate 32 1 ∧
    (SchnorrSignature.to_bytes
        { r := List.replicate 32 1, s := List.replicate 32 2 }).drop 32 =
      List.replicate 32 2 :=
  schnorr_to_bytes_layout { r := List.replicate 32 1, s := List.replicate 32 2 }
    (by simp) (by simp)

/-- C4: the x-only normalization used by both session runners.  A
33-byte input with a one-byte 0x02/0x03 marker followed by 32 bytes
yields exactly those trailing 32 bytes; a 32-byte input is returned
unchanged; any other length fails with an error naming the unexpected
length, and the runners turn that into a failure result carrying the
same error. -/
theorem xonly_normalization :
    (∀ (b : Nat) (rest : List Nat), (b = 2 ∨ b = 3) → rest.length = 32 →
      normalizePublicKey (b :: rest) = Except.ok rest ∧
      normalizeRPoint (b :: rest) = Except.ok rest) ∧
    (∀ bs : List Nat, bs.length = 32 →
      normalizePublicKey bs = Except.ok bs ∧
      normalizeRPoint bs = Except.ok bs) ∧
    (∀ bs : List Nat, bs.length ≠ 32 → bs.length ≠ 33 →
      normalizePublicKey bs =
        Except.error ("Unexpected public key length: " ++ toString bs.length) ∧
      normalizeRPoint bs =
        Except.error ("Unexpected R point length: " ++ toString bs.length)) ∧
    (∀ (env : KeygenEnv) (pk : List Nat), env.keygenOutcome = Except.ok pk →
      pk.length ≠ 32 → pk.length ≠ 33 →
      (run_frost_keygen env).success = false ∧
      (run_frost_keygen env).error =
        some ("Unexpected public key length: " ++ toString pk.length)) ∧
    (∀ (enable : Bool) (env : SignEnv) (sig : RawSignature),
      env.keyShareOutcome = Except.ok () → env.tweakOutcome = Except.ok () →
      env.signOutcome = Except.ok sig →
      sig.rBytes.length ≠ 32 → sig.rBytes.length ≠ 33 →
      (run_frost_signing_with_benchmark enable env).success = false ∧
      (run_frost_signing_with_benchmark enable env).error =
        some ("Unexpected R point length: " ++ toString sig.rBytes.length)) := by
  refine ⟨?_, ?_, ?_, ?_, ?_⟩
  · intro b rest _ hlen
    have h33 : (b :: rest).length = 33 := by simp [hlen]
    constructor
    · simp [normalizePublicKey, h33]
    · simp [normalizeRPoint, h33]
  · intro bs h32
    constructor
    · simp [normalizePublicKey, h32]
    · simp [normalizeRPoint, h32]
  · intro bs h32 h33
    constructor
    · simp [normalizePublicKey, h32, h33]
    · simp [normalizeRPoint, h32, h33]
  · intro env pk henv h32 h33
    have hn : normalizePublicKey pk =
        Except.error ("Unexpected public key length: " ++ toString pk.length) := by
      simp [normalizePublicKey, h32, h33]
    constructor
    · simp [run_frost_keygen, henv, hn]
    · simp [run_frost_keygen, henv, hn]
  · intro enable env sig hks htw hsg h32 h33
    have hn : normalizeRPoint sig.rBytes =
        Except.error ("Unexpected R point length: " ++ toString sig.rBytes.length) := by
      simp [normalizeRPoint, h32, h33]
    constructor
    · simp [run_frost_signing_with_benchmark, hks, htw, hsg, hn]
    · simp [run_frost_signing_with_benchmark, hks, htw, hsg, hn]

/-- Witness for C4: each normalization case evaluated at a concrete
input, including the runner-level failure results. -/
theorem xonly_normalization_witness :
    normalizePublicKey (2 :: List.replicate 32 7) =
      Except.ok (List.replicate 32 7) ∧
    normalizeRPoint (List.replicate 32 7) = Except.ok (List.replicate 32 7) ∧
    normalizePublicKey [1, 2, 3] =
      Except.error ("Unexpected public key length: " ++
        toString (([1, 2, 3] : List Nat).length)) ∧
    (run_frost_keygen
        { keygenOutcome := Except.ok [1, 2, 3]
          serOutcome := Except.ok []
          elapsed := 0 }).success = false ∧
    (run_frost_signing_with_benchmark true envBadR).error =
      some ("Unexpected R point length: " ++
        toString (([1, 2, 3] : List Nat).length)) :=
  ⟨(xonly_normalization.1 2 (List.replicate 32 7) (Or.inl rfl) (by simp)).1,
   (xonly_normalization.2.1 (List.replicate 32 7) (by simp)).2,
   (xonly_normalization.2.2.1 [1, 2, 3] (by decide) (by decide)).1,
   (xonly_normalization.2.2.2.1
      { keygenOutcome := Except.ok [1, 2, 3], serOutcome := Except.ok [],
        elapsed := 0 } [1, 2, 3] rfl (by decide) (by decide)).1,
   (xonly_normalization.2.2.2.2 true envBadR
      { rBytes := [1, 2, 3], zBytes := List.replicate 32 0 }
      rfl rfl rfl (by decide) (by decide)).2⟩

/-- Seq values of the envelopes appended by an all-successful trace of
sends, generalized over the starting counter value and queue. -/
theorem sendTrace_all_ok_seqs {α : Type} (ser : α → Except String (List Nat)) :
    ∀ (items : List (Outgoing α)) (sink : ChannelSink) (ch : Channel),
      (∀ r ∈ (sendTrace ser sink ch items).2.2, r = Except.ok ()) →
      (sendTrace ser sink ch items).2.1.queue.map ProtocolMessage.seq =
        ch.queue.map ProtocolMessage.seq ++
          List.range' (sink.seq + 1) items.length := by
  intro items
  induction items with
  | nil => intro sink ch _; simp [sendTrace]
  | cons item rest ih =>
      intro sink ch hall
      rcases hsend : startSend ser sink ch item with ⟨sink', ch', r⟩
      have hr : r = Except.ok () := by
        apply hall
        simp only [sendTrace, hsend]
        rcases sendTrace ser sink' ch' rest with ⟨sinkF, chF, rs⟩
        simp
      subst hr
      obtain ⟨hsink', payload, -, hch'⟩ := startSend_ok_inv hsend
      have hrest : ∀ r ∈ (sendTrace ser sink' ch' rest).2.2, r = Except.ok () := by
        intro r hrmem
        apply hall
        simp only [sendTrace, hsend]
        rcases hT : sendTrace ser sink' ch' rest with ⟨sinkF, chF, rs⟩
        rw [hT] at hrmem
        simp at hrmem ⊢
        exact Or.inr hrmem
      have := ih sink' ch' hrest
      simp only [sendTrace, hsend]
      rcases hT : sendTrace ser sink' ch' rest with ⟨sinkF, chF, rs⟩
      rw [hT] at this
      simp only at this ⊢
      rw [this, hch', hsink']
      simp [List.range'_succ]

/-- C3: for a trace of `N` sends all accepted by one `ChannelSink`
instance with initial counter 0 into an initially empty outbound queue,
the emitted envelopes carry seq values exactly `1, 2, ..., N` in send
order — strictly increasing, starting at 1, never reused. -/
theorem seq_monotonicity {α : Type} (ser : α → Except String (List Nat))
    (items : List (Outgoing α)) (sink : ChannelSink) (ch : Channel)
    (hseq : sink.seq = 0) (hq : ch.queue = [])
    (hok : ∀ r ∈ (sendTrace ser sink ch items).2.2, r = Except.ok ()) :
    (sendTrace ser sink ch items).2.1.queue.map ProtocolMessage.seq =
      List.range' 1 items.length := by
  have := sendTrace_all_ok_seqs ser items sink ch hok
  rw [hseq, hq] at this
  simpa using this

/-- Witness for C3: two concrete accepted sends emit seq values 1, 2. -/
theorem seq_monotonicity_witness :
    (∀ r ∈ (sendTrace serSingleton ⟨"s1", 0, 0⟩ ⟨[], none, false⟩
        [⟨MessageDestination.AllParties, 5⟩,
         ⟨MessageDestination.OneParty 1, 7⟩]).2.2, r = Except.ok ()) ∧
    (sendTrace serSingleton ⟨"s1", 0, 0⟩ ⟨[], none, false⟩
        [⟨MessageDestination.AllParties, 5⟩,
         ⟨MessageDestination.OneParty 1, 7⟩]).2.1.queue.map
      ProtocolMessage.seq = List.range' 1 2 := by
  have hres : (sendTrace serSingleton ⟨"s1", 0, 0⟩ ⟨[], none, false⟩
      [⟨MessageDestination.AllParties, 5⟩,
       ⟨MessageDestination.OneParty 1, 7⟩]).2.2 =
      [Except.ok (), Except.ok ()] := rfl
  have hok : ∀ r ∈ (sendTrace serSingleton ⟨"s1", 0, 0⟩ ⟨[], none, false⟩
      [⟨MessageDestination.AllParties, 5⟩,
       ⟨MessageDestination.OneParty 1, 7⟩]).2.2, r = Except.ok () := by
    intro r hr
    rw [hres] at hr
    simpa using hr
  exact ⟨hok,
    seq_monotonicity serSingleton
      [⟨MessageDestination.AllParties, 5⟩, ⟨MessageDestination.OneParty 1, 7⟩]
      ⟨"s1", 0, 0⟩ ⟨[], none, false⟩ rfl rfl hok⟩

/-- C9: `start_send` increments the counter before serializing or
enqueueing, so a failed send still consumes a sequence number: the
counter advances, the channel is untouched, and the next accepted send
emits `seq + 2` relative to the pre-failure counter — not contiguous
with the previously emitted value. -/
theorem seq_consumed_on_failure {α : Type}
    (ser : α → Except String (List Nat)) (sink sink1 : ChannelSink)
    (ch ch1 : Channel) (i1 : Outgoing α) (e : IOError)
    (hfail : startSend ser sink ch i1 = (sink1, ch1, Except.error e)) :
    sink1.seq = sink.seq + 1 ∧ ch1 = ch ∧
    (∀ (i2 : Outgoing α) (sink2 : ChannelSink) (ch2 : Channel),
      startSend ser sink1 ch1 i2 = (sink2, ch2, Except.ok ()) →
      ∃ m : ProtocolMessage, ch2.queue = ch.queue ++ [m] ∧
        m.seq = sink.seq + 2) := by
  obtain ⟨hsink1, hch1⟩ := startSend_err_inv hfail
  refine ⟨by rw [hsink1], hch1, ?_⟩
  intro i2 sink2 ch2 hok
  obtain ⟨-, payload, -, hch2⟩ := startSend_ok_inv hok
  refine ⟨{ session_id := sink1.session_id
            sender := sink1.party_index
            recipient :=
              match i2.recipient with
              | MessageDestination.AllParties => none
              | MessageDestination.OneParty p => some p
            round := 0
            payload := payload
            seq := sink1.seq + 1 }, ?_, ?_⟩
  · rw [hch2, hch1]
  · simp [hsink1]

/-- Witness for C9: a concrete failed send consumes seq 1; the next
accepted send emits seq 2. -/
theorem seq_consumed_on_failure_witness :
    (ChannelSink.mk "s1" 0 1).seq = (ChannelSink.mk "s1" 0 0).seq + 1 ∧
    (Channel.mk [] none false) = (Channel.mk [] none false) ∧
    (∀ (i2 : Outgoing Nat) (sink2 : ChannelSink) (ch2 : Channel),
      startSend serFailZero ⟨"s1", 0, 1⟩ ⟨[], none, false⟩ i2 =
        (sink2, ch2, Except.ok ()) →
      ∃ m : ProtocolMessage, ch2.queue = (Channel.mk [] none false).queue ++ [m] ∧
        m.seq = (ChannelSink.mk "s1" 0 0).seq + 2) :=
  seq_consumed_on_failure serFailZero ⟨"s1", 0, 0⟩ ⟨"s1", 0, 1⟩
    ⟨[], none, false⟩ ⟨[], none, false⟩
    ⟨MessageDestination.AllParties, 0⟩
    ⟨IOErrorKind.InvalidData, "boom"⟩ rfl

/-- C7: envelope round-trip.  A successful `start_send` of an engine
message emits exactly one envelope carrying the sink's session id as
`session_id`, the party index as `sender`, the fresh counter value as
`seq`, the serialized message as `payload` and the resolved destination
as `recipient`; decoding that envelope on the receiving side (with a
deserializer inverting the serializer) reproduces the original values
field-for-field: the original sender, the original seq as the message
identifier, the addressing class of the original recipient, and the
message deserialized from the original payload bytes. -/
theorem envelope_round_trip {α : Type}
    (ser : α → Except String (List Nat)) (deser : List Nat → Except String α)
    (sink sink' : ChannelSink) (ch ch' : Channel) (item : Outgoing α)
    (hok : startSend ser sink ch item = (sink', ch', Except.ok ()))
    (hrt : ∀ payload, ser item.msg = Except.ok payload →
      deser payload = Except.ok item.msg) :
    ∃ m : ProtocolMessage, ch'.queue = ch.queue ++ [m] ∧
      m.session_id = sink.session_id ∧
      m.sender = sink.party_index ∧
      m.seq = sink.seq + 1 ∧
      ser item.msg = Except.ok m.payload ∧
      ((item.recipient = MessageDestination.AllParties ∧ m.recipient = none) ∨
       (∃ p, item.recipient = MessageDestination.OneParty p ∧
         m.recipient = some p)) ∧
      processIncoming deser m = Except.ok
        { id := m.seq
          sender := m.sender
          msg_type :=
            if m.recipient.isSome then MessageType.P2P
            else MessageType.Broadcast
          msg := item.msg } := by
  obtain ⟨-, payload, hser, hch⟩ := startSend_ok_inv hok
  refine ⟨{ session_id := sink.session_id
            sender := sink.party_index
            recipient :=
              match item.recipient with
              | MessageDestination.AllParties => none
              | MessageDestination.OneParty p => some p
            round := 0
            payload := payload
            seq := sink.seq + 1 }, by rw [hch], rfl, rfl, rfl, hser, ?_, ?_⟩
  · cases hdest : item.recipient with
    | AllParties => exact Or.inl ⟨rfl, by simp⟩
    | OneParty p => exact Or.inr ⟨p, rfl, by simp⟩
  · have hd : deser payload = Except.ok item.msg := hrt payload hser
    simp [processIncoming, hd]

/-- Witness for C7 at a concrete message, sink state and channel. -/
theorem envelope_round_trip_witness :
    ∃ m : ProtocolMessage,
      (Channel.mk [⟨"s1", 4, some 2, 0, [7], 10⟩] none false).queue =
        (Channel.mk [] none false).queue ++ [m] ∧
      m.session_id = "s1" ∧
      m.sender = 4 ∧
      m.seq = 9 + 1 ∧
      serSingleton (Outgoing.mk (MessageDestination.OneParty 2) 7).msg =
        Except.ok m.payload ∧
      (((Outgoing.mk (MessageDestination.OneParty 2) 7).recipient =
          MessageDestination.AllParties ∧ m.recipient = none) ∨
       (∃ p, (Outgoing.mk (MessageDestination.OneParty 2) 7).recipient =
          MessageDestination.OneParty p ∧ m.recipient = some p)) ∧
      processIncoming deserSingle m = Except.ok
        { id := m.seq
          sender := m.sender
          msg_type :=
            if m.recipient.isSome then MessageType.P2P
            else MessageType.Broadcast
          msg := (Outgoing.mk (MessageDestination.OneParty 2) 7).msg } :=
  envelope_round_trip serSingleton deserSingle ⟨"s1", 4, 9⟩ ⟨"s1", 4, 10⟩
    ⟨[], none, false⟩ ⟨[⟨"s1", 4, some 2, 0, [7], 10⟩], none, false⟩
    ⟨MessageDestination.OneParty 2, 7⟩ rfl
    (fun p hp => by injection hp with h; rw [← h]; rfl)

/-- A string whose length is nonzero is not the empty string. -/
theorem string_ne_empty_of_length_ne_zero {s : String} (h : s.length ≠ 0) :
    s ≠ "" := by
  intro hc
  subst hc
  simp at h

/-- Appending to a string of nonzero length never yields the empty
string. -/
theorem string_append_ne_empty_left (a b : String) (h : a.length ≠ 0) :
    a ++ b ≠ "" := by
  apply string_ne_empty_of_length_ne_zero
  rw [String.length_append]
  omega

/-- Inversion of a failing public-key normalization: the error message
names the unexpected length. -/
theorem normalizePublicKey_error_inv {bs : List Nat} {msg : String}
    (h : normalizePublicKey bs = Except.error msg) :
    msg = "Unexpected public key length: " ++ toString bs.length := by
  unfold normalizePublicKey at h
  split at h
  · simp at h
  · split at h
    · simp at h
    · exact (Except.error.inj h).symm

/-- Inversion of a failing R-point normalization: the error message
names the unexpected length. -/
theorem normalizeRPoint_error_inv {bs : List Nat} {msg : String}
    (h : normalizeRPoint bs = Except.error msg) :
    msg = "Unexpected R point length: " ++ toString bs.length := by
  unfold normalizeRPoint at h
  split at h
  · simp at h
  · split at h
    · simp at h
    · exact (Except.error.inj h).symm

/-- A successful R-point normalization always yields 32 bytes. -/
theorem normalizeRPoint_ok_length {bs r : List Nat}
    (h : normalizeRPoint bs = Except.ok r) : r.length = 32 := by
  unfold normalizeRPoint at h
  split at h
  · rename_i h33
    rw [← Except.ok.inj h]
    simp [h33]
  · split at h
    · rename_i h32
      rw [← Except.ok.inj h]
      exact h32
    · simp at h

/-- C2: terminal-result totality.  Both session runners are total
functions of their environment — every reachable failure path
(malformed inbound payload, malformed key share, tweak failure,
transport-full on send, engine abort, bad component length, all
surfacing through the environment outcomes) returns a result record
with `success = false`, a non-empty error string and a populated
`duration_secs`; nothing escapes uncaught. -/
theorem terminal_result_totality (envK : KeygenEnv) (envS : SignEnv)
    (enable : Bool) :
    (run_frost_keygen envK).duration_secs = envK.elapsed ∧
    ((run_frost_keygen envK).success = false →
      ∃ s, (run_frost_keygen envK).error = some s ∧ s ≠ "") ∧
    (run_frost_signing_with_benchmark enable envS).duration_secs =
      envS.elapsed ∧
    ((run_frost_signing_with_benchmark enable envS).success = false →
      ∃ s, (run_frost_signing_with_benchmark enable envS).error = some s ∧
        s ≠ "") := by
  refine ⟨?_, ?_, ?_, ?_⟩
  · unfold run_frost_keygen
    split
    · rfl
    · split
      · rfl
      · split
        · rfl
        · rfl
  · unfold run_frost_keygen
    split
    · intro _
      exact ⟨_, rfl, string_append_ne_empty_left _ _ (by decide)⟩
    · split
      · rename_i hn
        intro _
        refine ⟨_, rfl, ?_⟩
        rw [normalizePublicKey_error_inv hn]
        exact string_append_ne_empty_left _ _ (by decide)
      · split
        · intro _
          exact ⟨_, rfl, string_append_ne_empty_left _ _ (by decide)⟩
        · intro hfalse
          simp at hfalse
  · simp only [run_frost_signing_with_benchmark]
    split
    · rfl
    · split
      · rfl
      · split
        · split
          · rfl
          · split
            · rfl
            · rfl
        · rfl
  · simp only [run_frost_signing_with_benchmark]
    split
    · intro _
      exact ⟨_, rfl, string_append_ne_empty_left _ _ (by decide)⟩
    · split
      · intro _
        exact ⟨_, rfl, string_append_ne_empty_left _ _ (by decide)⟩
      · split
        · split
          · rename_i hn
            intro _
            refine ⟨_, rfl, ?_⟩
            rw [normalizeRPoint_error_inv hn]
            exact string_append_ne_empty_left _ _ (by decide)
          · split
            · intro _
              refine ⟨_, rfl, ?_⟩
              apply string_append_ne_empty_left
              rw [String.length_append, String.length_append]
              have h1 : ("Unexpected signature lengths: R=").length ≠ 0 := by
                decide
              omega
            · intro hfalse
              simp at hfalse
        · intro _
          exact ⟨_, rfl, string_append_ne_empty_left _ _ (by decide)⟩

/-- Witness for C2: a concrete aborted keygen run and a concrete
tweak-failing signing run both return failure records with non-empty
errors and their environment's elapsed duration. -/
theorem terminal_result_totality_witness :
    (run_frost_keygen envKFail).duration_secs = envKFail.elapsed ∧
    (∃ s, (run_frost_keygen envKFail).error = some s ∧ s ≠ "") ∧
    (run_frost_signing_with_benchmark true envTweakFail).duration_secs =
      envTweakFail.elapsed ∧
    (∃ s, (run_frost_signing_with_benchmark true envTweakFail).error =
      some s ∧ s ≠ "") := by
  obtain ⟨h1, h2, h3, h4⟩ := terminal_result_totality envKFail envTweakFail true
  exact ⟨h1, h2 rfl, h3, h4 rfl⟩

/-- C1 (counterexample): with `enable_benchmark = true`, the recorder
initialized and every lock acquisition succeeding, the taproot-tweak
failure path and the unexpected-R-length failure path both return a
result whose `benchmark` field is `none` — not populated as the claim
states. -/
theorem benchmark_tweak_failure_counterexample :
    (run_frost_signing_with_benchmark true envTweakFail).success = false ∧
    (run_frost_signing_with_benchmark true envTweakFail).error =
      some ("Failed to set taproot tweak: " ++ "invalid key share") ∧
    (run_frost_signing_with_benchmark true envTweakFail).benchmark = none ∧
    (run_frost_signing_with_benchmark true envBadR).success = false ∧
    (run_frost_signing_with_benchmark true envBadR).benchmark = none :=
  ⟨rfl, rfl, rfl, rfl, rfl⟩

/-- C1 (amended): with `enable_benchmark = true` and every recorder
lock acquisition succeeding, the benchmark report is attached exactly on
the two paths that reach the MPC signing outcome — engine success with
valid component lengths, and engine failure.  The key-share
deserialization failure, the taproot-tweak failure and the
unexpected-length failures all return `benchmark = none`. -/
theorem benchmark_attachment (env : SignEnv)
    (hlock : ∀ i, env.lockOk i = true) :
    (run_frost_signing_with_benchmark true env).benchmark.isSome =
      ((env.keyShareOutcome.isOk && env.tweakOutcome.isOk) &&
        match env.signOutcome with
        | Except.error _ => true
        | Except.ok sig =>
            (normalizeRPoint sig.rBytes).isOk &&
              (sig.zBytes.length == 32)) := by
  rcases hks : env.keyShareOutcome with e | u
  · simp [run_frost_signing_with_benchmark, hks, Except.isOk, Except.toBool]
  · rcases htw : env.tweakOutcome with e | u'
    · simp [run_frost_signing_with_benchmark, hks, htw, Except.isOk, Except.toBool]
    · rcases hsg : env.signOutcome with e | sig
      · simp [run_frost_signing_with_benchmark, recordStep, finishBenchmark,
          hks, htw, hsg, hlock, Except.isOk, Except.toBool]
      · rcases hn : normalizeRPoint sig.rBytes with msg | r
        · simp [run_frost_signing_with_benchmark, recordStep, finishBenchmark,
            hks, htw, hsg, hn, hlock, Except.isOk, Except.toBool]
        · have hr : r.length = 32 := normalizeRPoint_ok_length hn
          by_cases hz : sig.zBytes.length = 32
          · simp [run_frost_signing_with_benchmark, recordStep,
              finishBenchmark, hks, htw, hsg, hn, hlock, hr, hz, Except.isOk, Except.toBool]
          · simp [run_frost_signing_with_benchmark, recordStep,
              finishBenchmark, hks, htw, hsg, hn, hlock, hr, hz, Except.isOk, Except.toBool]

/-- Witness for C1 (amended): on a concrete fully successful signing
run every lock succeeds and the benchmark report is attached. -/
theorem benchmark_attachment_witness :
    (run_frost_signing_with_benchmark true envSignOk).benchmark.isSome =
      ((envSignOk.keyShareOutcome.isOk && envSignOk.tweakOutcome.isOk) &&
        match envSignOk.signOutcome with
        | Except.error _ => true
        | Except.ok sig =>
            (normalizeRPoint sig.rBytes).isOk &&
              (sig.zBytes.length == 32)) :=
  benchmark_attachment envSignOk (fun _ => rfl)

end Frost
